import Mathlib

/-!
Shallow embedding of the request-handling layer of the `blogicum` blog
application (files `blog/views.py` and `blog/forms.py`).

Entities (`Post`, `Category`, `Comment`, `User`) are records; the backing
store is a list of records; the ORM query chains (`filter`, `order_by`,
`get_object_or_404`) become list operations; Django's `Paginator.get_page`
is modelled after its source (clamping invalid page numbers); handlers
become pure functions from viewer/store/request data to a response plus
the updated store. Time is a natural number.
-/

/-- A blog category (`blog.models.Category`): only the fields the views
read are modelled. -/
structure Category where
  id : Nat
  slug : String
  is_published : Bool
deriving Repr, DecidableEq

/-- A blog post (`blog.models.Post`); `author` is the author's user id and
the category row is embedded, mirroring the `category__is_published`
foreign-key dereference in the views. -/
structure Post where
  id : Nat
  title : String
  text : String
  author : Nat
  category : Category
  pub_date : Nat
  is_published : Bool
deriving Repr, DecidableEq

/-- A user account (`django.contrib.auth` user): the fields the views
read. `password` stores the password hash. -/
structure UserT where
  id : Nat
  username : String
  password : String
deriving Repr, DecidableEq

/-- A comment (`blog.models.Comment`): `author` and `post` are ids. -/
structure Comment where
  id : Nat
  text : String
  author : Nat
  post : Nat
deriving Repr, DecidableEq

/-- The named redirect targets the handlers produce
(`redirect('blog:post_detail', ...)` etc. in `views.py`). -/
inductive Redirect where
  | post_detail (post_id : Nat)
  | profile (username : String)
  | password_change_done
deriving Repr, DecidableEq

/-- A handler's response, abstracting Django's response objects:
`Http404`, `HttpResponseForbidden`, `redirect`, and `render`. -/
inductive Resp where
  | notFound
  | forbidden (msg : String)
  | redirect (target : Redirect)
  | render (tmpl : String)
deriving Repr, DecidableEq

/-- HTTP method, as far as the handlers distinguish it
(`request.method != 'POST'` vs `== 'POST'`). -/
inductive Method where
  | get
  | post
deriving Repr, DecidableEq

/-- The `page` query parameter as `request.GET.get('page')` yields it:
absent, present but not an integer literal, or an integer. -/
inductive PageParam where
  | missing
  | invalid
  | num (n : Int)
deriving Repr, DecidableEq

/-- `LIMIT_POSTS = 10` in `views.py`, the page size of every listing. -/
def LIMIT_POSTS : Nat := 10

/-- The anonymous user's username is the empty string
(`AnonymousUser.username = ''`); an authenticated viewer's is their own. -/
def viewerUsername : Option UserT → String
  | some u => u.username
  | none => ""

/-- `request.user == <user with id uid>`: true only for an authenticated
viewer with that id (an anonymous viewer never equals a stored user). -/
def viewerIsUser (viewer : Option UserT) (uid : Nat) : Bool :=
  match viewer with
  | some u => u.id == uid
  | none => false

/-- `get_object_or_404(Post, pk=post_id)`: first post with the given pk. -/
def getObjectOr404 (posts : List Post) (post_id : Nat) : Option Post :=
  posts.find? (fun p => p.id == post_id)

/-- The public-visibility conjunction used by the listing filters:
`pub_date__lte=current_time, is_published=True, category__is_published=True`. -/
def publicVisible (now : Nat) (p : Post) : Bool :=
  decide (p.pub_date ≤ now) && p.is_published && p.category.is_published

/-- The descending-`pub_date` order `order_by('-pub_date')` sorts by. -/
def pubDateGE (p q : Post) : Prop := q.pub_date ≤ p.pub_date

instance : DecidableRel pubDateGE := fun p q => Nat.decLe q.pub_date p.pub_date

instance : IsTotal Post pubDateGE := ⟨fun p q => Nat.le_total q.pub_date p.pub_date⟩

instance : IsTrans Post pubDateGE := ⟨fun _ _ _ h1 h2 => Nat.le_trans h2 h1⟩

/-- `order_by('-pub_date')`: a stable sort by publish timestamp descending. -/
def sortByPubDateDesc (l : List Post) : List Post :=
  List.insertionSort pubDateGE l

namespace Paginator

/-- `Paginator.num_pages` with `orphans = 0` and
`allow_empty_first_page = True`: `ceil(max(1, count) / per_page)`. -/
def num_pages (per_page count : Nat) : Nat :=
  (max 1 count + per_page - 1) / per_page

/-- The page number `Paginator.get_page` settles on: `validate_number`
raises `PageNotAnInteger` for a non-integer (caught as page 1) and
`EmptyPage` for a number below 1 or above `num_pages` (caught as the last
page); an in-range number is used as is. -/
def resolve (per_page count : Nat) : PageParam → Nat
  | PageParam.missing => 1
  | PageParam.invalid => 1
  | PageParam.num n =>
      if n < 1 then num_pages per_page count
      else if n > (num_pages per_page count : Nat) then num_pages per_page count
      else n.toNat

/-- `Paginator.get_page(page_number).object_list`: the slice
`object_list[(number-1)*per_page : (number-1)*per_page + per_page]`. -/
def get_page (per_page : Nat) (l : List Post) (param : PageParam) : List Post :=
  let number := resolve per_page l.length param
  (l.drop ((number - 1) * per_page)).take per_page

end Paginator

/-- `index` (`views.py`): filter by the public-visibility conjunction,
order by `-pub_date`, paginate at `LIMIT_POSTS`, return the page. -/
def index (now : Nat) (posts : List Post) (param : PageParam) : List Post :=
  Paginator.get_page LIMIT_POSTS
    (sortByPubDateDesc (posts.filter (publicVisible now))) param

/-- The profile listing's queryset after ordering (`views.py`,
`profile_view` lines 20-31): all of the named user's posts; when the
viewer's username differs from the requested username, additionally
filtered by the public-visibility conjunction. -/
def profileListing (viewer : Option UserT) (posts : List Post)
    (username : String) (user : UserT) (now : Nat) : List Post :=
  let userPosts := posts.filter (fun p => p.author == user.id)
  let shown :=
    if viewerUsername viewer ≠ username then
      userPosts.filter (publicVisible now)
    else
      userPosts
  sortByPubDateDesc shown

/-- `profile_view` (`views.py`): 404 when no user has the username;
otherwise the profile together with the requested page of
`profileListing`. -/
def profile_view (viewer : Option UserT) (users : List UserT)
    (posts : List Post) (username : String) (now : Nat)
    (param : PageParam) : Option (UserT × List Post) :=
  match users.find? (fun u => u.username == username) with
  | none => none
  | some user =>
      some (user, Paginator.get_page LIMIT_POSTS
        (profileListing viewer posts username user now) param)

/-- `category_posts` (`views.py`): 404 unless a category with the slug
exists and is published; then that category's posts filtered by
`is_published=True, pub_date__lte=current_time`, ordered, paginated. -/
def category_posts (now : Nat) (categories : List Category)
    (posts : List Post) (slug : String) (param : PageParam) :
    Option (Category × List Post) :=
  match categories.find? (fun c => c.slug == slug && c.is_published) with
  | none => none
  | some cat =>
      let post_list := (posts.filter (fun p => p.category.id == cat.id)).filter
        (fun p => p.is_published && decide (p.pub_date ≤ now))
      some (cat, Paginator.get_page LIMIT_POSTS
        (sortByPubDateDesc post_list) param)

/-- `PostDetailView.get_object` (`views.py` lines 126-132): load the post
by pk (404 if absent); when the viewer is not the author, 404 unless the
post's published flag and its category's published flag both hold. The
publish timestamp is not consulted. -/
def PostDetailView.get_object (viewer : Option UserT) (posts : List Post)
    (post_id : Nat) : Option Post :=
  match getObjectOr404 posts post_id with
  | none => none
  | some obj =>
      if !(viewerIsUser viewer obj.author)
          && (!obj.is_published || !obj.category.is_published) then
        none
      else
        some obj

/-- The fields of the `Post` model, as a `ModelForm` enumerates them. -/
inductive PostField where
  | title
  | text
  | pub_date
  | category
  | is_published
  | author
deriving Repr, DecidableEq

/-- The order the model declares its fields in. -/
def Post.allFields : List PostField :=
  [PostField.title, PostField.text, PostField.pub_date,
   PostField.category, PostField.is_published, PostField.author]

/-- One submitted value per model field, including an `author` value the
client may have put in the request body. -/
structure PostData where
  title : String
  text : String
  pub_date : Nat
  category : Category
  is_published : Bool
  author : Nat
deriving Repr, DecidableEq

/-- Assign the submitted value of one field to the instance. -/
def setField (p : Post) (d : PostData) : PostField → Post
  | PostField.title => { p with title := d.title }
  | PostField.text => { p with text := d.text }
  | PostField.pub_date => { p with pub_date := d.pub_date }
  | PostField.category => { p with category := d.category }
  | PostField.is_published => { p with is_published := d.is_published }
  | PostField.author => { p with author := d.author }

namespace PostForm

/-- `PostForm.Meta.exclude = ['author']` (`forms.py`). -/
def excluded : List PostField := [PostField.author]

/-- The form's bound fields: every model field not excluded. -/
def formFields : List PostField :=
  Post.allFields.filter (fun f => !(excluded.contains f))

/-- `ModelForm` binding (`construct_instance`): assign each bound form
field's submitted value onto the instance; excluded fields are untouched. -/
def bind (inst : Post) (d : PostData) : Post :=
  formFields.foldl (fun p f => setField p d f) inst

end PostForm

/-- The fresh empty instance a `CreateView`'s form starts from. -/
def blankPost : Post :=
  { id := 0, title := "", text := "", author := 0,
    category := { id := 0, slug := "", is_published := false },
    pub_date := 0, is_published := false }

/-- `PostCreateView.form_valid` (`views.py` lines 82-84): after the form
has bound the submitted data, set `form.instance.author = request.user`
and save. -/
def PostCreateView.form_valid (viewer : UserT) (inst : Post)
    (d : PostData) : Post :=
  { PostForm.bind inst d with author := viewer.id }

/-- `PostCreateView` as a whole: persist the new post and redirect to the
viewer's profile (`get_success_url`). -/
def postCreate (viewer : UserT) (d : PostData) (posts : List Post) :
    List Post × Resp :=
  (posts ++ [PostCreateView.form_valid viewer blankPost d],
   Resp.redirect (Redirect.profile viewer.username))

/-- `PostUpdateView.dispatch` plus the update flow (`views.py` lines
90-101): 404 when the pk resolves to nothing; a viewer other than the
author is redirected to the post's detail page with the store untouched;
the author gets the edit form on GET and, on POST, the form (author field
excluded) is saved over the post. -/
def PostUpdateView.dispatch (viewer : UserT) (posts : List Post)
    (post_id : Nat) (method : Method) (d : PostData) : Resp × List Post :=
  match getObjectOr404 posts post_id with
  | none => (Resp.notFound, posts)
  | some obj =>
      if obj.author ≠ viewer.id then
        (Resp.redirect (Redirect.post_detail post_id), posts)
      else
        match method with
        | Method.get => (Resp.render "blog/create.html", posts)
        | Method.post =>
            (Resp.redirect (Redirect.post_detail post_id),
             posts.map (fun p => if p.id == post_id then PostForm.bind obj d else p))

/-- `delete_post` (`views.py` lines 104-117): the lookup is
`get_object_or_404(Post, pk=post_id, author=request.user)`; a non-POST
request renders the confirmation template; POST deletes the post and
redirects to the viewer's profile. -/
def delete_post (viewer : UserT) (posts : List Post) (post_id : Nat)
    (method : Method) : Resp × List Post :=
  match posts.find? (fun p => p.id == post_id && p.author == viewer.id) with
  | none => (Resp.notFound, posts)
  | some _ =>
      match method with
      | Method.get => (Resp.render "blog/create.html", posts)
      | Method.post =>
          (Resp.redirect (Redirect.profile viewer.username),
           posts.filter (fun p => !(p.id == post_id)))

/-- `CommentForm` (`forms.py`): single required `text` field, so the form
is valid exactly when the text is non-empty. -/
def CommentForm.is_valid (text : String) : Bool :=
  !(text == "")

/-- `edit_comment` (`views.py` lines 194-213): the comment is fetched by
`id=comment_id` alone; a viewer other than the comment's author gets an
explicit `HttpResponseForbidden`; the author gets the edit form on GET
and, on a valid POST, the text is saved and the handler redirects to the
detail page of the `post_id` from the URL. -/
def edit_comment (viewer : UserT) (comments : List Comment)
    (post_id comment_id : Nat) (method : Method) (text : String) :
    Resp × List Comment :=
  match comments.find? (fun c => c.id == comment_id) with
  | none => (Resp.notFound, comments)
  | some comment =>
      if comment.author ≠ viewer.id then
        (Resp.forbidden "У вас нет прав для редактирования этого комментария.",
         comments)
      else
        match method with
        | Method.get => (Resp.render "blog/comment.html", comments)
        | Method.post =>
            if CommentForm.is_valid text then
              (Resp.redirect (Redirect.post_detail post_id),
               comments.map (fun c =>
                 if c.id == comment_id then { c with text := text } else c))
            else
              (Resp.render "blog/comment.html", comments)

/-- `delete_comment` (`views.py` lines 216-230): the comment is fetched by
`id=comment_id` alone; a viewer other than the author gets
`HttpResponseForbidden`; POST deletes the comment and redirects to the
detail page of the `post_id` from the URL; non-POST renders confirmation. -/
def delete_comment (viewer : UserT) (comments : List Comment)
    (post_id comment_id : Nat) (method : Method) : Resp × List Comment :=
  match comments.find? (fun c => c.id == comment_id) with
  | none => (Resp.notFound, comments)
  | some comment =>
      if comment.author ≠ viewer.id then
        (Resp.forbidden "У вас нет прав для удаления этого комментария.",
         comments)
      else
        match method with
        | Method.post =>
            (Resp.redirect (Redirect.post_detail post_id),
             comments.filter (fun c => !(c.id == comment_id)))
        | Method.get => (Resp.render "blog/comment.html", comments)

/-- The password hasher `set_password` applies, modelled as an injective
tagging of the raw password. -/
def hashPassword (raw : String) : String := "pbkdf2:" ++ raw

/-- The viewer's session, carrying the auth hash that
`update_session_auth_hash` refreshes. The session keeps the viewer logged
in exactly while its hash matches the account's current password hash. -/
structure Session where
  user_id : Nat
  session_hash : String
deriving Repr, DecidableEq

/-- A session is live (the viewer stays logged in) when its auth hash
matches the account's stored password hash. -/
def sessionValid (u : UserT) (s : Session) : Bool :=
  s.session_hash == u.password

/-- `PasswordChangeForm` validation (`forms.py` lines 32-45): both fields
are required, and `clean` rejects when both are present but differ. -/
def PasswordChangeForm.is_valid (password1 password2 : String) : Bool :=
  let fieldsOk := !(password1 == "") && !(password2 == "")
  let cleanErr := !(password1 == "") && !(password2 == "")
    && !(password1 == password2)
  fieldsOk && !cleanErr

/-- `password_change_view` (`views.py` lines 55-70): on a valid POST, set
the new password, save, call `update_session_auth_hash` (refreshing the
session hash to the new password hash), and redirect to the done page;
otherwise re-render the form with account and session untouched. -/
def password_change_view (user : UserT) (sess : Session) (method : Method)
    (password1 password2 : String) : Resp × UserT × Session :=
  match method with
  | Method.post =>
      if PasswordChangeForm.is_valid password1 password2 then
        let user2 := { user with password := hashPassword password1 }
        let sess2 := { sess with session_hash := user2.password }
        (Resp.redirect Redirect.password_change_done, user2, sess2)
      else
        (Resp.render "blog/password_change_form.html", user, sess)
  | Method.get => (Resp.render "blog/password_change_form.html", user, sess)

/-- A published category used by the concrete instances below. -/
def exCatPub : Category := { id := 1, slug := "general", is_published := true }

/-- A concrete user. -/
def exAlice : UserT := { id := 1, username := "alice", password := "h1" }

/-- A second concrete user. -/
def exBob : UserT := { id := 2, username := "bob", password := "h2" }

/-- A post that is publicly visible at time 10. -/
def exPostOk : Post :=
  { id := 1, title := "", text := "", author := 1, category := exCatPub,
    pub_date := 5, is_published := true }

/-- A published post in a published category whose publish timestamp 100
lies in the future of time 0. -/
def exFuturePost : Post :=
  { id := 1, title := "", text := "", author := 1, category := exCatPub,
    pub_date := 100, is_published := true }

/-- An unpublished draft authored by `exAlice`. -/
def exAlicePost : Post :=
  { id := 2, title := "", text := "", author := 1, category := exCatPub,
    pub_date := 50, is_published := false }

/-- A post authored by `exBob`. -/
def exBobPost : Post :=
  { id := 1, title := "", text := "", author := 2, category := exCatPub,
    pub_date := 3, is_published := true }

/-- A comment authored by `exAlice` on post 7. -/
def exComment : Comment := { id := 3, text := "t", author := 1, post := 7 }

/-- A session for `exAlice` whose auth hash matches her stored password. -/
def exSession : Session := { user_id := 1, session_hash := "h1" }

theorem get_page_sublist (pp : Nat) (l : List Post) (param : PageParam) :
    List.Sublist (Paginator.get_page pp l param) l := by
  unfold Paginator.get_page
  exact (List.take_sublist _ _).trans (List.drop_sublist _ _)

theorem get_page_length_le (pp : Nat) (l : List Post) (param : PageParam) :
    (Paginator.get_page pp l param).length ≤ pp := by
  unfold Paginator.get_page
  exact List.length_take_le _ _

theorem mem_sortByPubDateDesc (l : List Post) (p : Post) :
    p ∈ sortByPubDateDesc l ↔ p ∈ l :=
  (List.perm_insertionSort pubDateGE l).mem_iff

theorem sorted_sortByPubDateDesc (l : List Post) :
    List.Pairwise pubDateGE (sortByPubDateDesc l) :=
  List.sorted_insertionSort pubDateGE l

theorem num_pages_pos (pp count : Nat) (hpp : 0 < pp) :
    1 ≤ Paginator.num_pages pp count := by
  unfold Paginator.num_pages
  have h1 : 1 ≤ max 1 count := le_max_left 1 count
  rw [Nat.le_div_iff_mul_le hpp]
  omega

theorem resolve_bounds (pp count : Nat) (hpp : 0 < pp) (param : PageParam) :
    1 ≤ Paginator.resolve pp count param
    ∧ Paginator.resolve pp count param ≤ Paginator.num_pages pp count := by
  have hnp := num_pages_pos pp count hpp
  cases param with
  | missing => exact ⟨Nat.le_refl 1, hnp⟩
  | invalid => exact ⟨Nat.le_refl 1, hnp⟩
  | num n =>
      unfold Paginator.resolve
      by_cases h1 : n < 1
      · simp only [h1, if_true]
        exact ⟨hnp, Nat.le_refl _⟩
      · by_cases h2 : n > (Paginator.num_pages pp count : Nat)
        · simp only [h1, h2, if_false, if_true]
          exact ⟨hnp, Nat.le_refl _⟩
        · simp only [h1, h2, if_false]
          omega

/-- Claim C2: every post on the index page satisfies the full
public-visibility conjunction (published, category published, publish
timestamp not after `now`), and the page is ordered by publish timestamp
descending. -/
theorem index_only_public_sorted (now : Nat) (posts : List Post)
    (param : PageParam) :
    (∀ p, p ∈ index now posts param → publicVisible now p = true)
    ∧ List.Pairwise pubDateGE (index now posts param) := by
  constructor
  · intro p hp
    have hmem : p ∈ sortByPubDateDesc (posts.filter (publicVisible now)) :=
      (get_page_sublist _ _ _).subset hp
    have := (mem_sortByPubDateDesc _ _).1 hmem
    exact (List.mem_filter.1 this).2
  · exact List.Pairwise.sublist (get_page_sublist _ _ _)
      (sorted_sortByPubDateDesc _)

/-- Claim C2, witness: the visible example post appears on the concrete
index page, and it indeed passes the visibility conjunction. -/
theorem index_only_public_sorted_witness : publicVisible 10 exPostOk = true :=
  (index_only_public_sorted 10 [exPostOk, exAlicePost] PageParam.missing).1
    exPostOk (by decide)

/-- Claim C1, counterexample: a non-author viewer requests a published
post (published category) whose publish timestamp 100 is in the future of
now = 0; the handler returns the post, while the claim demands a
"not found" outcome. The handler never reads the clock. -/
theorem post_detail_future_visible_ce :
    PostDetailView.get_object (some exBob) [exFuturePost] 1 = some exFuturePost
    ∧ viewerIsUser (some exBob) exFuturePost.author = false
    ∧ publicVisible 0 exFuturePost = false := by
  refine ⟨by decide, by decide, by decide⟩

/-- Claim C1 (amended): for a resolved post whose author is not the
viewer, the detail handler checks only the two published flags: the
result is the post when both hold and "not found" otherwise; the publish
timestamp is never consulted. -/
theorem post_detail_checks_flags_only (viewer : Option UserT)
    (posts : List Post) (post_id : Nat) (p : Post)
    (hfind : getObjectOr404 posts post_id = some p)
    (hna : viewerIsUser viewer p.author = false) :
    PostDetailView.get_object viewer posts post_id
      = if p.is_published && p.category.is_published then some p else none := by
  unfold PostDetailView.get_object
  rw [hfind]
  cases hp : p.is_published <;> cases hc : p.category.is_published <;>
    simp [hna, hp, hc]

/-- Claim C1 (amended), witness at a concrete input. -/
theorem post_detail_checks_flags_only_witness :
    PostDetailView.get_object (some exBob) [exFuturePost] 1
      = if exFuturePost.is_published && exFuturePost.category.is_published
        then some exFuturePost else none :=
  post_detail_checks_flags_only (some exBob) [exFuturePost] 1 exFuturePost
    (by decide) (by decide)

/-- Claim C3: when the viewer is the profile's user, the profile listing
holds exactly that user's posts (unpublished and future-dated ones
included); for any other viewer it holds exactly the user's posts passing
the public-visibility conjunction; either way it is ordered by publish
timestamp descending, and `profile_view` serves the requested page of it. -/
theorem profile_listing_spec (viewer : Option UserT) (users : List UserT)
    (posts : List Post) (username : String) (now : Nat) (user : UserT)
    (param : PageParam)
    (hfind : users.find? (fun u => u.username == username) = some user) :
    (viewerUsername viewer = username →
      ∀ p, p ∈ profileListing viewer posts username user now ↔
        p ∈ posts ∧ p.author = user.id)
    ∧ (viewerUsername viewer ≠ username →
      ∀ p, p ∈ profileListing viewer posts username user now ↔
        p ∈ posts ∧ p.author = user.id ∧ publicVisible now p = true)
    ∧ List.Pairwise pubDateGE (profileListing viewer posts username user now)
    ∧ profile_view viewer users posts username now param
        = some (user, Paginator.get_page LIMIT_POSTS
            (profileListing viewer posts username user now) param) := by
  refine ⟨?_, ?_, sorted_sortByPubDateDesc _, ?_⟩
  · intro hv p
    simp [profileListing, mem_sortByPubDateDesc, hv, List.mem_filter]
  · intro hv p
    simp only [profileListing, mem_sortByPubDateDesc, hv, if_true,
      ne_eq, not_false_iff, ite_true, List.mem_filter, beq_iff_eq]
    tauto
  · unfold profile_view
    rw [hfind]

/-- Claim C3, witness: alice viewing her own profile sees her unpublished
draft in the listing. -/
theorem profile_listing_spec_witness :
    exAlicePost ∈ profileListing (some exAlice) [exAlicePost] "alice" exAlice 0 :=
  ((profile_listing_spec (some exAlice) [exAlice] [exAlicePost] "alice" 0
      exAlice PageParam.missing (by decide)).1 rfl exAlicePost).2
    ⟨by decide, rfl⟩

/-- Claim C4: the model form never binds the submitted author value (the
bound instance keeps whatever author it started with), `form_valid`
forces the created post's author to the submitting viewer, and the
create handler persists exactly that post. -/
theorem post_create_author_is_viewer (viewer : UserT) (d : PostData)
    (posts : List Post) (inst : Post) :
    (PostForm.bind inst d).author = inst.author
    ∧ (PostCreateView.form_valid viewer inst d).author = viewer.id
    ∧ (postCreate viewer d posts).1
        = posts ++ [PostCreateView.form_valid viewer blankPost d] := by
  exact ⟨rfl, rfl, rfl⟩

/-- Claim C5: a post-update request by a viewer who is not the resolved
post's author is answered with a redirect to that post's detail page, and
the post store is returned unchanged. -/
theorem post_update_non_author_redirect (viewer : UserT) (posts : List Post)
    (post_id : Nat) (method : Method) (d : PostData) (p : Post)
    (hfind : getObjectOr404 posts post_id = some p)
    (hna : p.author ≠ viewer.id) :
    PostUpdateView.dispatch viewer posts post_id method d
      = (Resp.redirect (Redirect.post_detail post_id), posts) := by
  unfold PostUpdateView.dispatch
  rw [hfind]
  simp [hna]

/-- Claim C5, witness: bob's post, requested for update by alice. -/
theorem post_update_non_author_redirect_witness :
    PostUpdateView.dispatch exAlice [exBobPost] 1 Method.post
      { title := "t", text := "x", pub_date := 0, category := exCatPub,
        is_published := true, author := 1 }
      = (Resp.redirect (Redirect.post_detail 1), [exBobPost]) :=
  post_update_non_author_redirect exAlice [exBobPost] 1 Method.post
    { title := "t", text := "x", pub_date := 0, category := exCatPub,
      is_published := true, author := 1 }
    exBobPost (by decide) (by decide)

/-- Claim C6: the delete-post lookup is scoped to `author = viewer`, so
when every post carrying the requested id belongs to someone else the
result is "not found" with the store untouched; for a resolved owner
post, a non-POST request renders the confirmation page without deleting,
and a POST request deletes the post (no post with that id remains) and
redirects to the viewer's profile. -/
theorem delete_post_spec (viewer : UserT) (posts : List Post)
    (post_id : Nat) (method : Method) :
    ((∀ p ∈ posts, p.id = post_id → p.author ≠ viewer.id) →
      delete_post viewer posts post_id method = (Resp.notFound, posts))
    ∧ (∀ p, posts.find? (fun q => q.id == post_id && q.author == viewer.id)
          = some p →
        (method = Method.get →
          delete_post viewer posts post_id method
            = (Resp.render "blog/create.html", posts))
        ∧ (method = Method.post →
          delete_post viewer posts post_id method
            = (Resp.redirect (Redirect.profile viewer.username),
               posts.filter (fun q => !(q.id == post_id)))
          ∧ ∀ q ∈ (delete_post viewer posts post_id method).2,
              q.id ≠ post_id)) := by
  constructor
  · intro h
    have hnone : posts.find?
        (fun q => q.id == post_id && q.author == viewer.id) = none := by
      rw [List.find?_eq_none]
      intro q hq
      simp only [Bool.and_eq_true, beq_iff_eq, not_and]
      exact fun hid => h q hq hid
    unfold delete_post
    rw [hnone]
  · intro p hp
    constructor
    · intro hm
      subst hm
      unfold delete_post
      rw [hp]
    · intro hm
      subst hm
      have heq : delete_post viewer posts post_id Method.post
          = (Resp.redirect (Redirect.profile viewer.username),
             posts.filter (fun q => !(q.id == post_id))) := by
        unfold delete_post
        rw [hp]
      refine ⟨heq, ?_⟩
      intro q hq
      rw [heq] at hq
      have := (List.mem_filter.1 hq).2
      simpa using this

/-- Claim C6, witness: alice cannot delete bob's post (not found, store
intact); bob's own POST removes it and redirects to his profile. -/
theorem delete_post_spec_witness :
    delete_post exAlice [exBobPost] 1 Method.post = (Resp.notFound, [exBobPost])
    ∧ delete_post exBob [exBobPost] 1 Method.post
        = (Resp.redirect (Redirect.profile "bob"), []) :=
  ⟨(delete_post_spec exAlice [exBobPost] 1 Method.post).1 (by decide),
   (((delete_post_spec exBob [exBobPost] 1 Method.post).2 exBobPost
      (by decide)).2 rfl).1⟩

/-- Claim C7: a comment-update or comment-delete request by a viewer who
is not the resolved comment's author gets the explicit forbidden response
of each handler, and the comment store is returned unchanged. -/
theorem comment_non_author_forbidden (viewer : UserT)
    (comments : List Comment) (post_id comment_id : Nat) (method : Method)
    (text : String) (c : Comment)
    (hfind : comments.find? (fun x => x.id == comment_id) = some c)
    (hna : c.author ≠ viewer.id) :
    edit_comment viewer comments post_id comment_id method text
      = (Resp.forbidden
          "У вас нет прав для редактирования этого комментария.", comments)
    ∧ delete_comment viewer comments post_id comment_id method
      = (Resp.forbidden
          "У вас нет прав для удаления этого комментария.", comments) := by
  constructor
  · unfold edit_comment
    rw [hfind]
    simp [hna]
  · unfold delete_comment
    rw [hfind]
    simp [hna]

/-- Claim C7, witness: bob requesting edit/delete of alice's comment. -/
theorem comment_non_author_forbidden_witness :
    edit_comment exBob [exComment] 7 3 Method.post "new"
      = (Resp.forbidden
          "У вас нет прав для редактирования этого комментария.", [exComment])
    ∧ delete_comment exBob [exComment] 7 3 Method.post
      = (Resp.forbidden
          "У вас нет прав для удаления этого комментария.", [exComment]) :=
  comment_non_author_forbidden exBob [exComment] 7 3 Method.post "new"
    exComment (by decide) (by decide)

/-- Claim C8: a POST with differing password fields is rejected with the
account record and the session both returned untouched (so the viewer
stays logged in); a POST with matching non-empty fields persists the new
password hash, refreshes the session hash to match it (the session stays
valid), and redirects to the confirmation page. -/
theorem password_change_spec (user : UserT) (sess : Session)
    (password1 password2 : String) :
    (password1 ≠ password2 →
      password_change_view user sess Method.post password1 password2
        = (Resp.render "blog/password_change_form.html", user, sess))
    ∧ (password1 = password2 → password1 ≠ "" →
      password_change_view user sess Method.post password1 password2
        = (Resp.redirect Redirect.password_change_done,
           { user with password := hashPassword password1 },
           { sess with session_hash := hashPassword password1 })
      ∧ sessionValid { user with password := hashPassword password1 }
          { sess with session_hash := hashPassword password1 } = true) := by
  constructor
  · intro hne
    have hval : PasswordChangeForm.is_valid password1 password2 = false := by
      unfold PasswordChangeForm.is_valid
      by_cases h1 : password1 = ""
      · simp [h1]
      · by_cases h2 : password2 = ""
        · simp [h2]
        · simp [h1, h2, hne]
    unfold password_change_view
    rw [hval]
    simp
  · intro heq hne
    subst heq
    have hval : PasswordChangeForm.is_valid password1 password1 = true := by
      unfold PasswordChangeForm.is_valid
      simp [hne]
    unfold password_change_view
    rw [hval]
    simp [sessionValid]

/-- Claim C8, witness: a mismatched submission leaves alice's record and
session alone; a matched one stores the new hash and keeps the session
valid. -/
theorem password_change_spec_witness :
    password_change_view exAlice exSession Method.post "new1" "new2"
      = (Resp.render "blog/password_change_form.html", exAlice, exSession)
    ∧ password_change_view exAlice exSession Method.post "new1" "new1"
        = (Resp.redirect Redirect.password_change_done,
           { exAlice with password := hashPassword "new1" },
           { exSession with session_hash := hashPassword "new1" })
    ∧ sessionValid { exAlice with password := hashPassword "new1" }
        { exSession with session_hash := hashPassword "new1" } = true :=
  ⟨(password_change_spec exAlice exSession "new1" "new2").1 (by decide),
   ((password_change_spec exAlice exSession "new1" "new1").2 rfl
      (by decide)).1,
   ((password_change_spec exAlice exSession "new1" "new1").2 rfl
      (by decide)).2⟩

/-- Claim C9: each listing view (index, profile, category) returns a page
of at most 10 posts for every value of the page parameter; all of them
paginate at the same size `LIMIT_POSTS = 10`; and the page number the
paginator settles on always lies between 1 and the page count, so no
parameter value can make the paginator fail. -/
theorem pagination_bounds (now : Nat) (posts : List Post) (param : PageParam)
    (viewer : Option UserT) (users : List UserT) (username : String)
    (categories : List Category) (slug : String) :
    (index now posts param).length ≤ 10
    ∧ (∀ user page, profile_view viewer users posts username now param
          = some (user, page) → page.length ≤ 10)
    ∧ (∀ cat page, category_posts now categories posts slug param
          = some (cat, page) → page.length ≤ 10)
    ∧ LIMIT_POSTS = 10
    ∧ (∀ l : List Post,
        1 ≤ Paginator.resolve LIMIT_POSTS l.length param
        ∧ Paginator.resolve LIMIT_POSTS l.length param
            ≤ Paginator.num_pages LIMIT_POSTS l.length) := by
  refine ⟨get_page_length_le _ _ _, ?_, ?_, rfl, ?_⟩
  · intro user page hpage
    unfold profile_view at hpage
    cases hfind : users.find? (fun u => u.username == username) with
    | none => rw [hfind] at hpage; exact absurd hpage (by simp)
    | some u =>
        rw [hfind] at hpage
        have : page = Paginator.get_page LIMIT_POSTS
            (profileListing viewer posts username u now) param := by
          injection hpage with h
          injection h with h1 h2
          exact h2.symm
        rw [this]
        exact get_page_length_le _ _ _
  · intro cat page hpage
    unfold category_posts at hpage
    cases hfind : categories.find? (fun c => c.slug == slug && c.is_published) with
    | none => rw [hfind] at hpage; exact absurd hpage (by simp)
    | some c =>
        rw [hfind] at hpage
        simp only [Option.some.injEq, Prod.mk.injEq] at hpage
        rw [← hpage.2]
        exact get_page_length_le _ _ _
  · intro l
    exact resolve_bounds LIMIT_POSTS l.length (by decide) param

/-- Claim C9, witness: a concrete profile page obeys the bound. -/
theorem pagination_bounds_witness :
    (Paginator.get_page LIMIT_POSTS
      (profileListing none [exAlicePost] "alice" exAlice 0)
      (PageParam.num 99)).length ≤ 10 :=
  (pagination_bounds 0 [exAlicePost] (PageParam.num 99) none [exAlice]
    "alice" [] "c").2.1 exAlice _ rfl

/-- Claim C10: the comment handlers resolve the comment by its id alone.
For the comment's author, a POST naming ANY post id `post_id` (the
comment's own post reference is never consulted) edits or deletes that
comment and redirects to the detail page of `post_id`; only a missing
comment id yields "not found". -/
theorem comment_handlers_ignore_post_id (viewer : UserT)
    (comments : List Comment) (post_id comment_id : Nat) (text : String)
    (c : Comment) :
    (comments.find? (fun x => x.id == comment_id) = some c →
      c.author = viewer.id →
      (CommentForm.is_valid text = true →
        edit_comment viewer comments post_id comment_id Method.post text
          = (Resp.redirect (Redirect.post_detail post_id),
             comments.map (fun x =>
               if x.id == comment_id then { x with text := text } else x)))
      ∧ delete_comment viewer comments post_id comment_id Method.post
          = (Resp.redirect (Redirect.post_detail post_id),
             comments.filter (fun x => !(x.id == comment_id))))
    ∧ (comments.find? (fun x => x.id == comment_id) = none →
        edit_comment viewer comments post_id comment_id Method.post text
          = (Resp.notFound, comments)
        ∧ delete_comment viewer comments post_id comment_id Method.post
          = (Resp.notFound, comments)) := by
  constructor
  · intro hfind hauth
    constructor
    · intro hvalid
      unfold edit_comment
      rw [hfind]
      simp [hauth, hvalid]
    · unfold delete_comment
      rw [hfind]
      simp [hauth]
  · intro hnone
    constructor
    · unfold edit_comment
      rw [hnone]
    · unfold delete_comment
      rw [hnone]

/-- Claim C10, witness: alice's comment belongs to post 7, yet a delete
request naming post 5 removes it and redirects to post 5's detail page. -/
theorem comment_handlers_ignore_post_id_witness :
    exComment.post = 7
    ∧ delete_comment exAlice [exComment] 5 3 Method.post
        = (Resp.redirect (Redirect.post_detail 5), []) :=
  ⟨rfl,
   ((comment_handlers_ignore_post_id exAlice [exComment] 5 3 "t"
      exComment).1 (by decide) rfl).2⟩
